import Mathlib

/-!
Shallow embedding of the serial control module
`alex_control_wasd_test_2.py`: the acknowledgment-gated send/receive
discipline, the command interpreter, the hello handshake, and the
keypress control loop.  The packet codec and the wire-level constants
are imported by the module from `alex_control_serialize` and
`alex_control_constants`, which are not contained in this snapshot;
those parts are modelled from the spec and their doc comments say so.
-/

namespace Alex

/-- Modelled from the spec: `PARAM_COUNT`, the fixed number of parameter
slots in every packet (`alex_control_constants.PAYLOAD_PARAMS_COUNT` is
missing from the snapshot).  The keypress loop builds its parameter list
as a 16-slot list, fixing the value. -/
def PAYLOAD_PARAMS_COUNT : Nat := 16

/-- Modelled from the spec: the fixed size of the opaque `data` payload
of a packet; the exact width is an implementation-defined constant. -/
def PAYLOAD_DATA_SIZE : Nat := 32

/-- Modelled from the spec: the magic marker byte opening every frame
(`COMMS_MAGIC_NUMBER` is missing from the snapshot); any fixed byte
value serves. -/
def COMMS_MAGIC_NUMBER : Nat := 252

/-- Modelled from the spec: `FRAME_SIZE`, the exact number of bytes of
every frame: magic, packetType, command, the parameter slots, the data
payload, and a trailing checksum byte. -/
def COMMS_PACKET_SIZE : Nat := 1 + 1 + 1 + PAYLOAD_PARAMS_COUNT + PAYLOAD_DATA_SIZE + 1

/-- Modelled from the spec: the packet-type enumeration (HELLO, COMMAND,
RESPONSE, ERROR); the numeric values are implementation-defined
constants, only distinctness matters. -/
def PACKET_TYPE_HELLO : Nat := 0

def PACKET_TYPE_COMMAND : Nat := 1

def PACKET_TYPE_RESPONSE : Nat := 2

def PACKET_TYPE_ERROR : Nat := 3

/-- Modelled from the spec: the command enumeration. -/
def COMMAND_FORWARD : Nat := 0

def COMMAND_REVERSE : Nat := 1

def COMMAND_TURN_LEFT : Nat := 2

def COMMAND_TURN_RIGHT : Nat := 3

def COMMAND_STOP : Nat := 4

def COMMAND_CLEAR_STATS : Nat := 5

def COMMAND_GET_STATS : Nat := 6

/-- Modelled from the spec: the OK response code carried in the
`command` field of a RESPONSE packet. -/
def RESP_OK : Nat := 0

/-- The decode result codes (`TResultType` in `alex_control_constants`):
OK, structurally bad, bad checksum, not yet enough bytes. -/
inductive TResultType
  | PACKET_OK
  | PACKET_BAD
  | PACKET_CHECKSUM_BAD
  | PACKET_INCOMPLETE
deriving DecidableEq

/-- Modelled from the spec: the Packet record (`TPacket` is declared in
the missing constants module): a packet type, a command (or response
code), `PARAM_COUNT` integer parameter slots, and an opaque fixed-size
data payload. -/
structure TPacket where
  packetType : Nat
  command : Nat
  params : List Int
  data : List Nat
deriving DecidableEq

/-- A freshly constructed `TPacket()`: every field zeroed. -/
def zeroPacket : TPacket :=
  { packetType := 0, command := 0,
    params := List.replicate PAYLOAD_PARAMS_COUNT 0,
    data := List.replicate PAYLOAD_DATA_SIZE 0 }

/-- One wire byte of an integer parameter (reduction mod 256 made
explicit). -/
def intByte (x : Int) : Nat := (x % 256).toNat

/-- Pad with zero bytes, or truncate, to exactly `n` bytes. -/
def padTrunc (l : List Nat) (n : Nat) : List Nat :=
  l.take n ++ List.replicate (n - l.length) 0

/-- Modelled from the spec: `serialize` (the Packet Codec `encode`):
magic marker, packetType, command, all `PARAM_COUNT` params, the data
payload, then a checksum over every preceding byte; always exactly
`FRAME_SIZE` bytes, no error path. -/
def serialize (p : TPacket) : List Nat :=
  let body := COMMS_MAGIC_NUMBER :: (p.packetType % 256) :: (p.command % 256) ::
    (padTrunc (p.params.map intByte) PAYLOAD_PARAMS_COUNT ++
      padTrunc (p.data.map (fun b => b % 256)) PAYLOAD_DATA_SIZE)
  body ++ [body.sum % 256]

/-- Modelled from the spec: `deserialize` (the Packet Codec `decode`):
fails closed — length check first (short means INCOMPLETE), then the
magic marker (mismatch means PACKET_BAD), then the checksum (mismatch
means PACKET_CHECKSUM_BAD), and only then are the fields extracted.
The packet component is only meaningful when the status is
`PACKET_OK`. -/
def deserialize (buf : List Nat) : TResultType × TPacket :=
  if buf.length < COMMS_PACKET_SIZE then (.PACKET_INCOMPLETE, zeroPacket)
  else if buf.headD 0 ≠ COMMS_MAGIC_NUMBER then (.PACKET_BAD, zeroPacket)
  else if (buf.take (COMMS_PACKET_SIZE - 1)).sum % 256 ≠ buf.getD (COMMS_PACKET_SIZE - 1) 0 then
    (.PACKET_CHECKSUM_BAD, zeroPacket)
  else
    (.PACKET_OK,
      { packetType := buf.getD 1 0, command := buf.getD 2 0,
        params := ((buf.drop 3).take PAYLOAD_PARAMS_COUNT).map Int.ofNat,
        data := (buf.drop (3 + PAYLOAD_PARAMS_COUNT)).take PAYLOAD_DATA_SIZE })

/-- A Python value appearing in a parameter list: the module freely
mixes token strings and literal integer zeros in the same list. -/
inductive PyVal
  | int (n : Int)
  | str (s : String)
deriving DecidableEq

/-- Strip leading and trailing whitespace from a character list
(Python's `str.strip()`). -/
def trimChars (cs : List Char) : List Char :=
  ((cs.dropWhile Char.isWhitespace).reverse.dropWhile Char.isWhitespace).reverse

/-- Python's `str.strip()`. -/
def pystrip (s : String) : String := String.mk (trimChars s.data)

/-- The value of a decimal digit character. -/
def digitVal? (c : Char) : Option Nat :=
  if 48 ≤ c.toNat ∧ c.toNat ≤ 57 then some (c.toNat - 48) else none

/-- Accumulate the value of a digit run; fails on a non-digit. -/
def digitsVal? : List Char → Nat → Option Nat
  | [], acc => some acc
  | c :: rest, acc =>
    match digitVal? c with
    | some d => digitsVal? rest (acc * 10 + d)
    | none => none

/-- The value of a nonempty all-digit character list. -/
def natDigits? (cs : List Char) : Option Nat :=
  match cs with
  | [] => none
  | _ => digitsVal? cs 0

/-- Python's `int(s)` on a string: optional surrounding whitespace, an
optional sign, then decimal digits; `none` models the raised
`ValueError`. -/
def pyIntOfString? (s : String) : Option Int :=
  match trimChars s.data with
  | '-' :: rest => (natDigits? rest).map (fun n => -(n : Int))
  | '+' :: rest => (natDigits? rest).map (fun n => (n : Int))
  | cs => (natDigits? cs).map (fun n => (n : Int))

/-- Python's `int(x)` applied to a parameter value: identity on
integers, numeric parse on strings. -/
def pyInt? : PyVal → Option Int
  | .int n => some n
  | .str s => pyIntOfString? s

/-- `[int(x) for x in params]`: `none` models the raised `ValueError`
when some entry does not convert. -/
def mapPyInts : List PyVal → Option (List Int)
  | [] => some []
  | v :: rest =>
    match pyInt? v, mapPyInts rest with
    | some n, some ns => some (n :: ns)
    | _, _ => none

/-- One line of console output: either a printed message or the raw
`print(params)` dump inside `sendPacket`. -/
inductive LogEntry
  | text (s : String)
  | dump (ps : List PyVal)
deriving DecidableEq

/-- The session state threaded through the module: the process-wide
`ack_received` flag (the Acknowledgment Gate), the frames written to
the Transport, and the console output. -/
structure CommState where
  ack_received : Bool
  written : List (List Nat)
  log : List LogEntry
deriving DecidableEq

/-- Append one printed line to the console log. -/
def logT (st : CommState) (s : String) : CommState :=
  { st with log := st.log ++ [LogEntry.text s] }

/-- The warning printed by a gated `sendPacket` call (source line 88). -/
def ackWarning : String := "Cannot send packet: Previous packet not acknowledged."

/-- The packet built by `sendPacket` (source lines 91-96): a fresh
zeroed `TPacket` with the type and command set and the converted
parameters written into the leading slots, the rest left zero. -/
def buildPacket (packetType commandType : Nat) (ints : List Int) : TPacket :=
  { zeroPacket with
    packetType := packetType, command := commandType,
    params := ints.take PAYLOAD_PARAMS_COUNT ++
      List.replicate (PAYLOAD_PARAMS_COUNT - ints.length) 0 }

/-- `sendPacket` (source lines 74-100).  If the gate is closed the call
only prints the warning and returns.  Otherwise it closes the gate,
builds the packet, prints the parameter list twice (lines 94 and 97),
serializes, and writes the frame.  `none` models the `ValueError`
raised by `int(x)` on a non-numeric parameter. -/
def sendPacket (st : CommState) (packetType commandType : Nat) (params : List PyVal) :
    Option CommState :=
  if st.ack_received = false then
    some (logT st ackWarning)
  else
    match mapPyInts params with
    | none => none
    | some ints =>
      some { ack_received := false,
             written := st.written ++ [serialize (buildPacket packetType commandType ints)],
             log := st.log ++ [LogEntry.dump params, LogEntry.dump params] }

/-- `handleError` (source lines 103-123): the message printed for each
decode failure status. -/
def handleError (res_status : TResultType) : String :=
  if res_status = TResultType.PACKET_BAD then "ERROR: Received Bad Packet from Arduino"
  else if res_status = TResultType.PACKET_CHECKSUM_BAD then "ERROR: Received Bad Checksum from Arduino"
  else "ERROR: Unknown Error in Processing Packet"

/-- The possible outcomes of one `receivePacket` call.  `starved` marks
the run in which the byte supply is exhausted before a full frame: the
Python loop is then still blocked inside the call. -/
inductive RecvOutcome
  | got (p : TPacket)
  | failed (s : TResultType)
  | cancelled
  | starved
deriving DecidableEq

/-- The read loop of `receivePacket` (source lines 55-70): each entry of
`chunks` is the byte string returned by one `readSerial` call; bytes
accumulate into `buffer` until it reaches the frame size, at which
point the frame is deserialized. -/
def recvLoop (chunks : List (List Nat)) (buffer : List Nat) : RecvOutcome :=
  match chunks with
  | [] => .starved
  | c :: rest =>
    if (buffer ++ c).length = COMMS_PACKET_SIZE then
      if (deserialize (buffer ++ c)).1 = TResultType.PACKET_OK then
        .got (deserialize (buffer ++ c)).2
      else .failed (deserialize (buffer ++ c)).1
    else recvLoop rest (buffer ++ c)

/-- The outcome of a `receivePacket` call with the given exit flag and
byte supply; with the flag set the loop body never runs (source line
55) and the call returns `None` without decoding. -/
def recvOutcome (exitFlag : Bool) (chunks : List (List Nat)) : RecvOutcome :=
  if exitFlag then .cancelled else recvLoop chunks []

/-- The state effect of one `receivePacket` call: on `PACKET_OK` the
gate opens (source line 65); on a decode failure the error is printed
and the gate is closed (lines 68-69); cancellation and a still-blocked
call touch nothing. -/
def applyRecv (st : CommState) : RecvOutcome → CommState
  | .got _ => { st with ack_received := true }
  | .failed s => { st with ack_received := false, log := st.log ++ [LogEntry.text (handleError s)] }
  | .cancelled => st
  | .starved => st

/-- The value returned by `receivePacket` for each outcome. -/
def recvReturn : RecvOutcome → Option TPacket
  | .got p => some p
  | _ => none

/-- `receivePacket` (source lines 37-71): returned packet and updated
session state.  The pair is only meaningful when the outcome is not
`starved` (a starved call has not yet returned). -/
def receivePacket (exitFlag : Bool) (chunks : List (List Nat)) (st : CommState) :
    Option TPacket × CommState :=
  let o := recvOutcome exitFlag chunks
  (recvReturn o, applyRecv st o)

/-- The state after a sequence of further `receivePacket` calls, each
given by its exit flag and byte supply. -/
def applyRecvs (st : CommState) (rs : List (Bool × List (List Nat))) : CommState :=
  rs.foldl (fun s r => applyRecv s (recvOutcome r.1 r.2)) st

/-- The first moment the accumulation buffer of `recvLoop` reaches the
frame size: the completed frame that gets deserialized, if the byte
supply gets that far. -/
def completedFrame (chunks : List (List Nat)) (buffer : List Nat) : Option (List Nat) :=
  match chunks with
  | [] => none
  | c :: rest =>
    if (buffer ++ c).length = COMMS_PACKET_SIZE then some (buffer ++ c)
    else completedFrame rest (buffer ++ c)

/-- The no-prompt tail of `parseParams` (source lines 144-157 with
`inputMessage = None`): zero-arity commands always get a fully zeroed
list; otherwise the first `num_p` entries are used and zero-padded, or
the call fails. -/
def parseParamsNoPrompt (p : List PyVal) (num_p : Nat) : Option (List PyVal) :=
  if num_p = 0 then some (List.replicate PAYLOAD_PARAMS_COUNT (PyVal.int 0))
  else if num_p ≤ p.length then
    some (p.take num_p ++ List.replicate (PAYLOAD_PARAMS_COUNT - num_p) (PyVal.int 0))
  else none

/-- Python's `str.split(" ")`: split on every single space character,
keeping empty pieces. -/
def splitSpaceAux : List Char → List Char → List String
  | [], acc => [String.mk acc.reverse]
  | c :: rest, acc =>
    if c = ' ' then String.mk acc.reverse :: splitSpaceAux rest []
    else splitSpaceAux rest (c :: acc)

/-- Python's `s.split(" ")`. -/
def pysplitSpace (s : String) : List String := splitSpaceAux s.data []

/-- The tokens produced by the interactive re-prompt of `parseParams`:
the re-entered line split on single spaces (source line 154, with no
filtering of empty tokens). -/
def promptTokens (line : String) : List PyVal := (pysplitSpace line).map PyVal.str

/-- `parseParams` (source lines 144-157).  `promptLine` is the line the
operator would type if prompted.  When too few tokens are given and a
prompt message is available, the re-entered line is reparsed exactly
once: the recursive call passes `None` as the message, so it is the
no-prompt function and cannot prompt again. -/
def parseParams (p : List PyVal) (num_p : Nat) (inputMessage : Option String)
    (promptLine : String) : Option (List PyVal) :=
  if num_p = 0 then some (List.replicate PAYLOAD_PARAMS_COUNT (PyVal.int 0))
  else if num_p ≤ p.length then
    some (p.take num_p ++ List.replicate (PAYLOAD_PARAMS_COUNT - num_p) (PyVal.int 0))
  else
    match inputMessage with
    | some _ => parseParamsNoPrompt (promptTokens promptLine) num_p
    | none => none

/-- The result of `parseUserInput`: the command triple when one is
produced, whether the Exit Signal was set, and the printed reports. -/
structure ParseResult where
  triple : Option (Nat × Nat × List PyVal)
  exitSet : Bool
  report : List String
deriving DecidableEq

/-- The prompt used by the `f` and `b` commands (source lines 172 and
176). -/
def promptFB : String :=
  "Enter distance in cm (e.g. 50) and power in % (e.g. 75) separated by space.\n"

/-- The prompt used by the `l` command (source line 180). -/
def promptL : String :=
  "Enter degrees to turn left (e.g. 90) and power in % (e.g. 75) separated by space.\n"

/-- The prompt used by the `r` command (source line 184). -/
def promptR : String :=
  "Enter degrees to turn right (e.g. 90) and power in % (e.g. 75) separated by space.\n"

/-- A two-parameter command branch of `parseUserInput`: the triple on
success, the `Invalid Parameters` report otherwise. -/
def withParams2 (commandType : Nat) (rest : List PyVal) (msg : String)
    (promptLine : String) : ParseResult :=
  match parseParams rest 2 (some msg) promptLine with
  | some ps => { triple := some (PACKET_TYPE_COMMAND, commandType, ps), exitSet := false, report := [] }
  | none => { triple := none, exitSet := false, report := ["Invalid Parameters"] }

/-- A zero-parameter command branch of `parseUserInput`: the triple is
returned unconditionally (`parseParams` with arity 0 always
succeeds). -/
def withParams0 (commandType : Nat) (rest : List PyVal) (promptLine : String) : ParseResult :=
  { triple := some (PACKET_TYPE_COMMAND, commandType, (parseParams rest 0 none promptLine).getD []),
    exitSet := false, report := [] }

/-- The tokenization of `parseUserInput` (source line 164): strip the
line, split on single spaces, drop empty tokens. -/
def tokenize (s : String) : List String :=
  (pysplitSpace (pystrip s)).filter (fun x => x ≠ "")

/-- The dispatch of `parseUserInput` over the token list (source lines
165-204). -/
def parseTokens (split_input : List String) (input_str : String)
    (promptLine : String) : ParseResult :=
  match split_input with
  | [] => { triple := none, exitSet := false, report := [input_str ++ " is not a valid command"] }
  | command :: restStr =>
    let rest := restStr.map PyVal.str
    if command = "f" then withParams2 COMMAND_FORWARD rest promptFB promptLine
    else if command = "b" then withParams2 COMMAND_REVERSE rest promptFB promptLine
    else if command = "l" then withParams2 COMMAND_TURN_LEFT rest promptL promptLine
    else if command = "r" then withParams2 COMMAND_TURN_RIGHT rest promptR promptLine
    else if command = "s" then withParams0 COMMAND_STOP rest promptLine
    else if command = "c" then withParams0 COMMAND_CLEAR_STATS rest promptLine
    else if command = "g" then withParams0 COMMAND_GET_STATS rest promptLine
    else if command = "q" then
      { triple := none, exitSet := true,
        report := ["Exiting! Setting Exit Flag...", "\n==============CLEANING UP=============="] }
    else { triple := none, exitSet := false, report := [command ++ " is not a valid command"] }

/-- `parseUserInput` (source lines 160-204).  The function itself never
touches the session state: a rejected line produces a report and no
triple, so no frame can result from it. -/
def parseUserInput (input_str : String) (promptLine : String) : ParseResult :=
  parseTokens (tokenize input_str) input_str promptLine

/-- The parameter list `[0] * PAYLOAD_PARAMS_COUNT` sent with the HELLO
packet (source line 215). -/
def helloParams : List PyVal := List.replicate PAYLOAD_PARAMS_COUNT (PyVal.int 0)

/-- `waitForHelloRoutine` (source lines 210-226): send a HELLO packet,
perform one blocking receive, and return normally only for a RESPONSE
packet carrying the OK code.  `Except.error` models the raised
exception; when the receive returns `None` the Python raise itself
trips over the unbound local `packetType`, which still raises (a
`NameError`), so bring-up is aborted on that path too.  `none` models a
call that has not returned because the receive is still blocked. -/
def waitForHelloRoutine (st : CommState) (exitFlag : Bool) (chunks : List (List Nat)) :
    Option (Except String CommState) :=
  let st1 := logT st "sending packet"
  match sendPacket st1 PACKET_TYPE_HELLO COMMAND_STOP helloParams with
  | none => none
  | some st2 =>
    let st3 := logT st2 "sent packet"
    let o := recvOutcome exitFlag chunks
    match o with
    | .starved => none
    | _ =>
      let st5 := logT (applyRecv st3 o) "got packet"
      match recvReturn o with
      | some p =>
        if p.packetType = PACKET_TYPE_RESPONSE ∧ p.command = RESP_OK then
          some (Except.ok (logT st5 "Received Hello Response"))
        else
          some (Except.error
            ("Failed to receive proper response from Arduino: Packet Type Mismatch " ++
              toString p.packetType))
      | none => some (Except.error "NameError: name packetType is not defined")

/-- Whether a routine result is a normal return. -/
def isOkResult (r : Option (Except String CommState)) : Bool :=
  match r with
  | some (.ok _) => true
  | _ => false

/-- Whether a routine result is a raised error. -/
def isErrResult (r : Option (Except String CommState)) : Bool :=
  match r with
  | some (.error _) => true
  | _ => false

/-- Whether a receive outcome is the successful handshake answer: a
packet of RESPONSE type carrying the OK code. -/
def helloSuccess (o : RecvOutcome) : Bool :=
  match o with
  | .got p => decide (p.packetType = PACKET_TYPE_RESPONSE ∧ p.command = RESP_OK)
  | _ => false

/-- The loop state of `run_keypress_control`: the selected power level
(a string, as in the source), the exit flag, and the session state. -/
structure LoopState where
  speed : String
  exitFlag : Bool
  comm : CommState
deriving DecidableEq

/-- One input event of the keypress loop: no key pending, a key whose
byte does not decode (`UnicodeDecodeError`), or a decoded, lowered
character. -/
inductive KeyEvent
  | noKey
  | undecodable
  | press (c : Char)
deriving DecidableEq

/-- Fixed movement distance of the keypress loop (source line 253). -/
def move_distance : String := "2"

/-- Fixed turning angle of the keypress loop (source line 254). -/
def turn_angle : String := "6"

/-- The `power_map` of the keypress loop (source lines 257-261); only
ever consulted at keys 1, 2, 3. -/
def power_map (c : Char) : String :=
  if c = '1' then "50" else if c = '2' then "75" else "100"

/-- The `t_list` sent by a movement key: `[0] * 16` with slot 0 set to
the magnitude string and slot 1 to the speed string (source lines
280-308). -/
def moveParams (d s : String) : List PyVal :=
  ((List.replicate 16 (PyVal.int 0)).set 0 (PyVal.str d)).set 1 (PyVal.str s)

/-- The literal parameter list of the stop key (source line 313). -/
def stopArgs : List PyVal := [PyVal.str "0", PyVal.str "0", PyVal.str "0", PyVal.str "0"]

/-- The STOP packet those arguments build. -/
def stopPacket : TPacket := buildPacket PACKET_TYPE_COMMAND COMMAND_STOP [0, 0, 0, 0]

/-- The tail of every non-exit iteration of the keypress loop (source
lines 320-331): print, one blocking `receivePacket`, and a log line
depending on whether an acknowledgement arrived.  The first component
counts the `receivePacket` calls made (always exactly one here); the
second is the state at the end of the iteration, or `none` while the
receive is still blocked. -/
def finishRecv (speed : String) (exitFlag : Bool) (cm : CommState)
    (chunks : List (List Nat)) : Nat × Option (LoopState × Bool) :=
  let cm1 := logT cm "waiting to receive"
  let o := recvOutcome exitFlag chunks
  let cm2 := applyRecv cm1 o
  match o with
  | .got p =>
    let cm3 :=
      if p.packetType = PACKET_TYPE_RESPONSE ∧ p.command = RESP_OK then
        logT cm2 "Received acknowledgement"
      else cm2
    (1, some ({ speed := speed, exitFlag := exitFlag, comm := cm3 }, true))
  | .failed _ =>
    (1, some ({ speed := speed, exitFlag := exitFlag, comm := logT cm2 "No response from Arduino" }, true))
  | .cancelled =>
    (1, some ({ speed := speed, exitFlag := exitFlag, comm := logT cm2 "No response from Arduino" }, true))
  | .starved => (1, none)

/-- A movement/stop branch of the keypress loop: print the action line,
send, then fall through to the receive tail.  A `none` with count 0
models the `ValueError` a non-numeric speed string would raise inside
`sendPacket`, before any receive. -/
def sendRecv (ls : LoopState) (msg : String) (commandType : Nat) (ps : List PyVal)
    (chunks : List (List Nat)) : Nat × Option (LoopState × Bool) :=
  match sendPacket (logT ls.comm msg) PACKET_TYPE_COMMAND commandType ps with
  | none => (0, none)
  | some cm => finishRecv ls.speed ls.exitFlag cm chunks

/-- One iteration of the body of `run_keypress_control` (source lines
270-331) on one input event.  The first component counts the
`receivePacket` calls of the iteration; the second holds the state at
the end of the iteration and whether the loop continues (`false` after
the ESC break), or `none` when the iteration does not complete. -/
def keypressStep (ls : LoopState) (ev : KeyEvent) (chunks : List (List Nat)) :
    Nat × Option (LoopState × Bool) :=
  match ev with
  | .noKey => (0, some (ls, true))
  | .undecodable => (0, some (ls, true))
  | .press c =>
    if c = '1' ∨ c = '2' ∨ c = '3' then
      let speed2 := power_map c
      finishRecv speed2 ls.exitFlag (logT ls.comm ("Speed = " ++ speed2 ++ "%")) chunks
    else if c = 'w' then
      sendRecv ls ("Move forward " ++ move_distance ++ " cm at " ++ ls.speed ++ "% power")
        COMMAND_FORWARD (moveParams move_distance ls.speed) chunks
    else if c = 's' then
      sendRecv ls ("Move backward " ++ move_distance ++ " cm at " ++ ls.speed ++ "% power")
        COMMAND_REVERSE (moveParams move_distance ls.speed) chunks
    else if c = 'a' then
      sendRecv ls ("Turn left " ++ turn_angle ++ " degrees at " ++ ls.speed ++ "% power")
        COMMAND_TURN_LEFT (moveParams turn_angle ls.speed) chunks
    else if c = 'd' then
      sendRecv ls ("Turn right " ++ turn_angle ++ " degrees at " ++ ls.speed ++ "% power")
        COMMAND_TURN_RIGHT (moveParams turn_angle ls.speed) chunks
    else if c = 'z' then
      sendRecv ls "Stop" COMMAND_STOP stopArgs chunks
    else if c = '\x1b' then
      (0, some ({ ls with exitFlag := true, comm := logT ls.comm "Exiting live control mode." }, false))
    else finishRecv ls.speed ls.exitFlag ls.comm chunks

/-- A valid RESPONSE/OK acknowledgement frame, used as a concrete byte
supply in several witnesses. -/
def respFrame : List Nat := serialize (buildPacket PACKET_TYPE_RESPONSE RESP_OK [])

/-- A loop state with the gate closed, from which the stop-key
counterexample runs. -/
def zCexStart : LoopState :=
  { speed := "50", exitFlag := false,
    comm := { ack_received := false, written := [], log := [] } }

/-- A fresh open-gate loop state at the default speed. -/
def wKeyStart : LoopState :=
  { speed := "50", exitFlag := false,
    comm := { ack_received := true, written := [], log := [] } }

/-- The loop state at the start of the stop-key witness iteration. -/
def zKeyStart : LoopState :=
  { speed := "75", exitFlag := false,
    comm := { ack_received := true, written := [], log := [] } }

/-- The loop state at the end of the stop-key witness iteration. -/
def zKeyEnd : LoopState :=
  { speed := "75", exitFlag := false,
    comm := { ack_received := true,
              written := [serialize stopPacket],
              log := [LogEntry.text "Stop", LogEntry.dump stopArgs, LogEntry.dump stopArgs,
                      LogEntry.text "waiting to receive",
                      LogEntry.text "Received acknowledgement"] } }

/-- The state before the single-flight witness: a fresh session with
the gate open. -/
def sfSt0 : CommState := { ack_received := true, written := [], log := [] }

/-- The state after the first send of the single-flight witness. -/
def sfSt1 : CommState :=
  { ack_received := false,
    written := [serialize (buildPacket PACKET_TYPE_COMMAND COMMAND_STOP [])],
    log := [LogEntry.dump [], LogEntry.dump []] }

/-- The state after the second, gated send of the single-flight
witness. -/
def sfSt2 : CommState := { sfSt1 with log := sfSt1.log ++ [LogEntry.text ackWarning] }

/- ------------------------------------------------------------------ -/
/- Helper lemmas -/
/- ------------------------------------------------------------------ -/

theorem mapPyInts_replicate_zero (n : Nat) :
    mapPyInts (List.replicate n (PyVal.int 0)) = some (List.replicate n 0) := by
  induction n with
  | zero => rfl
  | succ k ih => simp [List.replicate_succ, mapPyInts, pyInt?, ih]

theorem mapPyInts_length {ps : List PyVal} {ints : List Int}
    (h : mapPyInts ps = some ints) : ints.length = ps.length := by
  induction ps generalizing ints with
  | nil => simp [mapPyInts] at h; simp [← h]
  | cons v rest ih =>
    simp only [mapPyInts] at h
    cases hv : pyInt? v with
    | none => rw [hv] at h; exact absurd h (by simp)
    | some n =>
      rw [hv] at h
      cases hr : mapPyInts rest with
      | none => rw [hr] at h; exact absurd h (by simp)
      | some ns =>
        rw [hr] at h
        simp only [Option.some.injEq] at h
        subst h
        simp [ih hr]

theorem sendPacket_gated (st : CommState) (pt ct : Nat) (ps : List PyVal)
    (h : st.ack_received = false) :
    sendPacket st pt ct ps = some (logT st ackWarning) := by
  simp [sendPacket, h]

theorem sendPacket_open (st : CommState) (pt ct : Nat) (ps : List PyVal) (ints : List Int)
    (h : st.ack_received = true) (hm : mapPyInts ps = some ints) :
    sendPacket st pt ct ps =
      some { ack_received := false,
             written := st.written ++ [serialize (buildPacket pt ct ints)],
             log := st.log ++ [LogEntry.dump ps, LogEntry.dump ps] } := by
  simp [sendPacket, h, hm]

theorem sendPacket_total (st : CommState) (pt ct : Nat) (ps : List PyVal) (ints : List Int)
    (hm : mapPyInts ps = some ints) :
    ∃ st2, sendPacket st pt ct ps = some st2 := by
  cases h : st.ack_received with
  | false => exact ⟨_, sendPacket_gated st pt ct ps h⟩
  | true => exact ⟨_, sendPacket_open st pt ct ps ints h hm⟩

theorem applyRecv_written (st : CommState) (o : RecvOutcome) :
    (applyRecv st o).written = st.written := by
  cases o <;> rfl

theorem applyRecv_no_got (st : CommState) (o : RecvOutcome)
    (h : st.ack_received = false) (hng : ∀ p, o ≠ RecvOutcome.got p) :
    (applyRecv st o).ack_received = false := by
  cases o with
  | got p => exact absurd rfl (hng p)
  | failed s => rfl
  | cancelled => exact h
  | starved => exact h

theorem applyRecvs_stable (rs : List (Bool × List (List Nat))) :
    ∀ st : CommState, st.ack_received = false →
      (∀ r ∈ rs, ∀ p, recvOutcome r.1 r.2 ≠ RecvOutcome.got p) →
      (applyRecvs st rs).ack_received = false ∧ (applyRecvs st rs).written = st.written := by
  induction rs with
  | nil => intro st h _; exact ⟨h, rfl⟩
  | cons r rest ih =>
    intro st h hng
    have hng1 : ∀ p, recvOutcome r.1 r.2 ≠ RecvOutcome.got p :=
      hng r (List.mem_cons_self r rest)
    have hngrest : ∀ x ∈ rest, ∀ p, recvOutcome x.1 x.2 ≠ RecvOutcome.got p :=
      fun x hx => hng x (List.mem_cons_of_mem r hx)
    have hstep := ih (applyRecv st (recvOutcome r.1 r.2))
      (applyRecv_no_got st _ h hng1) hngrest
    refine ⟨hstep.1, ?_⟩
    calc (applyRecvs st (r :: rest)).written
        = (applyRecvs (applyRecv st (recvOutcome r.1 r.2)) rest).written := rfl
      _ = (applyRecv st (recvOutcome r.1 r.2)).written := hstep.2
      _ = st.written := applyRecv_written st _

theorem recvLoop_completed (chunks : List (List Nat)) :
    ∀ (buffer f : List Nat), completedFrame chunks buffer = some f →
      recvLoop chunks buffer =
        (if (deserialize f).1 = TResultType.PACKET_OK then RecvOutcome.got (deserialize f).2
         else RecvOutcome.failed (deserialize f).1) := by
  induction chunks with
  | nil => intro buffer f h; simp [completedFrame] at h
  | cons c rest ih =>
    intro buffer f h
    simp only [completedFrame] at h
    simp only [recvLoop]
    by_cases hl : (buffer ++ c).length = COMMS_PACKET_SIZE
    · rw [if_pos hl] at h
      simp only [Option.some.injEq] at h
      subst h
      rw [if_pos hl]
    · rw [if_neg hl] at h
      rw [if_neg hl]
      exact ih (buffer ++ c) f h

theorem finishRecv_fst (sp : String) (fl : Bool) (cm : CommState)
    (chunks : List (List Nat)) : (finishRecv sp fl cm chunks).1 = 1 := by
  cases h : recvOutcome fl chunks <;> simp [finishRecv, h]

theorem finishRecv_written (sp : String) (fl : Bool) (cm : CommState)
    (chunks : List (List Nat)) (l2 : LoopState) (ct : Bool)
    (h : (finishRecv sp fl cm chunks).2 = some (l2, ct)) :
    l2.comm.written = cm.written := by
  cases ho : recvOutcome fl chunks with
  | got p =>
    by_cases hc : p.packetType = PACKET_TYPE_RESPONSE ∧ p.command = RESP_OK
    · simp only [finishRecv, ho, if_pos hc, Option.some.injEq, Prod.mk.injEq] at h
      rw [← h.1]
      simp [logT, applyRecv]
    · simp only [finishRecv, ho, if_neg hc, Option.some.injEq, Prod.mk.injEq] at h
      rw [← h.1]
      simp [logT, applyRecv]
  | failed s =>
    simp only [finishRecv, ho, Option.some.injEq, Prod.mk.injEq] at h
    rw [← h.1]
    simp [logT, applyRecv]
  | cancelled =>
    simp only [finishRecv, ho, Option.some.injEq, Prod.mk.injEq] at h
    rw [← h.1]
    simp [logT, applyRecv]
  | starved => simp [finishRecv, ho] at h

theorem sendRecv_fst (ls : LoopState) (msg : String) (ct : Nat) (ps : List PyVal)
    (chunks : List (List Nat)) (ints : List Int) (hm : mapPyInts ps = some ints) :
    (sendRecv ls msg ct ps chunks).1 = 1 := by
  obtain ⟨cm, hcm⟩ := sendPacket_total (logT ls.comm msg) PACKET_TYPE_COMMAND ct ps ints hm
  simp [sendRecv, hcm, finishRecv_fst]

/- ------------------------------------------------------------------ -/
/- Claims -/
/- ------------------------------------------------------------------ -/

/-- Claim C1, counterexample to the claim as stated: in a session state
whose Acknowledgment Gate is already closed, two consecutive
`sendPacket` calls with no intervening receive write ZERO frames to the
Transport, not exactly one. -/
theorem single_flight_any_state_cex :
    (sendPacket { ack_received := false, written := [], log := [] }
        PACKET_TYPE_COMMAND COMMAND_STOP []).bind
      (fun s1 => (sendPacket s1 PACKET_TYPE_COMMAND COMMAND_GET_STATS []).map
        (fun s2 => s2.written.length)) = some 0 := by
  decide

/-- Claim C1 (amended: the initial state must have the gate open): from
a state with the Acknowledgment Gate open, a `sendPacket` call followed
by any sequence of `receivePacket` calls none of which returns a
packet, followed by a second `sendPacket` call, writes exactly one
frame; the second call writes nothing, leaves the gate and the frames
unchanged, and only prints the local warning. -/
theorem single_flight_gate_open (st : CommState) (pt ct : Nat) (ps : List PyVal)
    (rs : List (Bool × List (List Nat))) (pt2 ct2 : Nat) (ps2 : List PyVal)
    (st1 st2 : CommState)
    (hopen : st.ack_received = true)
    (h1 : sendPacket st pt ct ps = some st1)
    (hng : ∀ r ∈ rs, ∀ p, recvOutcome r.1 r.2 ≠ RecvOutcome.got p)
    (h2 : sendPacket (applyRecvs st1 rs) pt2 ct2 ps2 = some st2) :
    st1.written.length = st.written.length + 1 ∧
    st2.written = st1.written ∧
    st2.ack_received = false ∧
    st2.log = (applyRecvs st1 rs).log ++ [LogEntry.text ackWarning] := by
  cases hm : mapPyInts ps with
  | none => simp [sendPacket, hopen, hm] at h1
  | some ints =>
    rw [sendPacket_open st pt ct ps ints hopen hm] at h1
    simp only [Option.some.injEq] at h1
    subst h1
    have hst1 := applyRecvs_stable rs
      { ack_received := false,
        written := st.written ++ [serialize (buildPacket pt ct ints)],
        log := st.log ++ [LogEntry.dump ps, LogEntry.dump ps] } rfl hng
    rw [sendPacket_gated _ pt2 ct2 ps2 hst1.1] at h2
    simp only [Option.some.injEq] at h2
    subst h2
    refine ⟨by simp, ?_, ?_, ?_⟩
    · simpa [logT] using hst1.2
    · simp [logT, hst1.1]
    · simp [logT]

/-- Witness for C1 at a concrete fresh session. -/
theorem single_flight_gate_open_witness :
    sfSt1.written.length = sfSt0.written.length + 1 ∧
    sfSt2.written = sfSt1.written ∧
    sfSt2.ack_received = false ∧
    sfSt2.log = (applyRecvs sfSt1 []).log ++ [LogEntry.text ackWarning] :=
  single_flight_gate_open sfSt0 PACKET_TYPE_COMMAND COMMAND_STOP [] []
    PACKET_TYPE_COMMAND COMMAND_GET_STATS [] sfSt1 sfSt2 rfl (by decide)
    (by intro r hr; simp at hr) (by decide)

/-- Claim C2, counterexample to the claim as stated: a frame that
decodes to `PACKET_OK` but carries a COMMAND packet (not a RESPONSE
with OK) still opens the gate — the receive loop sets `ack_received`
on every successful decode without inspecting the packet. -/
theorem gate_reopen_response_only_cex :
    (receivePacket false [serialize (buildPacket PACKET_TYPE_COMMAND COMMAND_STOP [])]
        { ack_received := false, written := [], log := [] }).2.ack_received = true ∧
    ((receivePacket false [serialize (buildPacket PACKET_TYPE_COMMAND COMMAND_STOP [])]
        { ack_received := false, written := [], log := [] }).1.map
      (fun p => decide (p.packetType = PACKET_TYPE_RESPONSE ∧ p.command = RESP_OK)))
      = some false := by
  decide

/-- Claim C2 (amended: the gate reopens exactly when the receive
returns a packet, i.e. when the accumulated frame decodes to
`PACKET_OK`, regardless of the packet's type or result code): starting
from a closed gate, after a `receivePacket` call the gate is open if
and only if the call returned a packet. -/
theorem gate_reopen_on_decode_ok (st : CommState) (exitFlag : Bool)
    (chunks : List (List Nat)) (hclosed : st.ack_received = false) :
    (receivePacket exitFlag chunks st).2.ack_received =
      (receivePacket exitFlag chunks st).1.isSome := by
  cases ho : recvOutcome exitFlag chunks <;>
    simp [receivePacket, ho, applyRecv, recvReturn, hclosed]

/-- Witness for C2 at a concrete decode failure and a concrete
success. -/
theorem gate_reopen_on_decode_ok_witness :
    (receivePacket false [List.replicate COMMS_PACKET_SIZE 0]
        { ack_received := false, written := [], log := [] }).2.ack_received =
      (receivePacket false [List.replicate COMMS_PACKET_SIZE 0]
        { ack_received := false, written := [], log := [] }).1.isSome :=
  gate_reopen_on_decode_ok { ack_received := false, written := [], log := [] }
    false [List.replicate COMMS_PACKET_SIZE 0] rfl

/-- Claim C3: with the gate open and a convertible parameter list of at
most `PARAM_COUNT` values, `sendPacket` succeeds: it closes the gate,
builds a packet whose parameter slots beyond the given values are
zero-filled, encodes it, and writes the frame to the Transport. -/
theorem send_open_success (st : CommState) (pt ct : Nat) (ps : List PyVal) (ints : List Int)
    (hopen : st.ack_received = true)
    (hconv : mapPyInts ps = some ints)
    (hlen : ps.length ≤ PAYLOAD_PARAMS_COUNT) :
    sendPacket st pt ct ps =
      some { ack_received := false,
             written := st.written ++ [serialize (buildPacket pt ct ints)],
             log := st.log ++ [LogEntry.dump ps, LogEntry.dump ps] } ∧
    (buildPacket pt ct ints).params =
      ints ++ List.replicate (PAYLOAD_PARAMS_COUNT - ints.length) (0 : Int) := by
  refine ⟨sendPacket_open st pt ct ps ints hopen hconv, ?_⟩
  have hil : ints.length ≤ PAYLOAD_PARAMS_COUNT := by
    rw [mapPyInts_length hconv]; exact hlen
  simp [buildPacket, List.take_of_length_le hil]

/-- Witness for C3 at a concrete two-value parameter list. -/
theorem send_open_success_witness :
    sendPacket { ack_received := true, written := [], log := [] }
        PACKET_TYPE_COMMAND COMMAND_FORWARD [PyVal.str "10", PyVal.int 5] =
      some { ack_received := false,
             written := ([] : List (List Nat)) ++
               [serialize (buildPacket PACKET_TYPE_COMMAND COMMAND_FORWARD [10, 5])],
             log := ([] : List LogEntry) ++
               [LogEntry.dump [PyVal.str "10", PyVal.int 5],
                LogEntry.dump [PyVal.str "10", PyVal.int 5]] } ∧
    (buildPacket PACKET_TYPE_COMMAND COMMAND_FORWARD [10, 5]).params =
      [10, 5] ++ List.replicate (PAYLOAD_PARAMS_COUNT - ([10, 5] : List Int).length) (0 : Int) :=
  send_open_success { ack_received := true, written := [], log := [] }
    PACKET_TYPE_COMMAND COMMAND_FORWARD [PyVal.str "10", PyVal.int 5] [10, 5]
    rfl (by decide) (by decide)

/-- Claim C5: when the accumulated frame of a `receivePacket` call
decodes to `PACKET_BAD` or `PACKET_CHECKSUM_BAD`, the call prints the
specific error message for that status (the two messages differ),
returns `None`, and leaves the Acknowledgment Gate closed. -/
theorem recv_error_path (chunks : List (List Nat)) (st : CommState) (f : List Nat)
    (hf : completedFrame chunks [] = some f)
    (hbad : (deserialize f).1 = TResultType.PACKET_BAD ∨
      (deserialize f).1 = TResultType.PACKET_CHECKSUM_BAD) :
    (receivePacket false chunks st).1 = none ∧
    (receivePacket false chunks st).2.ack_received = false ∧
    (receivePacket false chunks st).2.log =
      st.log ++ [LogEntry.text (handleError (deserialize f).1)] ∧
    handleError TResultType.PACKET_BAD ≠ handleError TResultType.PACKET_CHECKSUM_BAD := by
  have hne : (deserialize f).1 ≠ TResultType.PACKET_OK := by
    rcases hbad with h | h <;> rw [h] <;> simp
  have hloop : recvLoop chunks [] = RecvOutcome.failed (deserialize f).1 := by
    rw [recvLoop_completed chunks [] f hf, if_neg hne]
  refine ⟨?_, ?_, ?_, by decide⟩
  · simp [receivePacket, recvOutcome, hloop, recvReturn]
  · simp [receivePacket, recvOutcome, hloop, applyRecv]
  · simp [receivePacket, recvOutcome, hloop, applyRecv]

/-- Witness for C5 at a concrete all-zero frame (bad magic marker). -/
theorem recv_error_path_witness :
    (receivePacket false [List.replicate COMMS_PACKET_SIZE 0]
        { ack_received := true, written := [], log := [] }).1 = none ∧
    (receivePacket false [List.replicate COMMS_PACKET_SIZE 0]
        { ack_received := true, written := [], log := [] }).2.ack_received = false ∧
    (receivePacket false [List.replicate COMMS_PACKET_SIZE 0]
        { ack_received := true, written := [], log := [] }).2.log =
      ([] : List LogEntry) ++
        [LogEntry.text (handleError (deserialize (List.replicate COMMS_PACKET_SIZE 0)).1)] ∧
    handleError TResultType.PACKET_BAD ≠ handleError TResultType.PACKET_CHECKSUM_BAD :=
  recv_error_path [List.replicate COMMS_PACKET_SIZE 0]
    { ack_received := true, written := [], log := [] }
    (List.replicate COMMS_PACKET_SIZE 0) (by decide) (Or.inl (by decide))

theorem parseParams_zero (p : List PyVal) (msgO : Option String) (line : String) :
    parseParams p 0 msgO line = some (List.replicate PAYLOAD_PARAMS_COUNT (PyVal.int 0)) := by
  unfold parseParams
  rw [if_pos rfl]

theorem parseParams_enough (p : List PyVal) (num_p : Nat) (msgO : Option String) (line : String)
    (h0 : num_p ≠ 0) (hle : num_p ≤ p.length) :
    parseParams p num_p msgO line =
      some (p.take num_p ++ List.replicate (PAYLOAD_PARAMS_COUNT - num_p) (PyVal.int 0)) := by
  unfold parseParams
  rw [if_neg h0, if_pos hle]

theorem withParams2_result (ct : Nat) (t1 t2 : String) (restT : List String) (msg line : String) :
    withParams2 ct (List.map PyVal.str (t1 :: t2 :: restT)) msg line =
      { triple := some (PACKET_TYPE_COMMAND, ct,
          [PyVal.str t1, PyVal.str t2] ++ List.replicate (PAYLOAD_PARAMS_COUNT - 2) (PyVal.int 0)),
        exitSet := false, report := [] } := by
  unfold withParams2
  rw [parseParams_enough _ 2 (some msg) line (by decide)
    (by simp only [List.length_map, List.length_cons]; omega)]
  simp [List.take_succ_cons]

theorem withParams0_result (ct : Nat) (rest : List PyVal) (line : String) :
    withParams0 ct rest line =
      { triple := some (PACKET_TYPE_COMMAND, ct, List.replicate PAYLOAD_PARAMS_COUNT (PyVal.int 0)),
        exitSet := false, report := [] } := by
  unfold withParams0
  rw [parseParams_zero]
  rfl

/-- Claim C4: `waitForHelloRoutine` returns normally exactly when the
receive yields a packet whose type is RESPONSE and whose command field
is the OK response code; for every other completed receive (a null
return, a wrong packet type, a wrong response code) it raises an error
that terminates bring-up. -/
theorem hello_handshake_spec (st : CommState) (exitFlag : Bool) (chunks : List (List Nat))
    (hs : recvOutcome exitFlag chunks ≠ RecvOutcome.starved) :
    isOkResult (waitForHelloRoutine st exitFlag chunks) =
      helloSuccess (recvOutcome exitFlag chunks) ∧
    isErrResult (waitForHelloRoutine st exitFlag chunks) =
      !helloSuccess (recvOutcome exitFlag chunks) := by
  obtain ⟨st2, hsend⟩ := sendPacket_total (logT st "sending packet") PACKET_TYPE_HELLO
    COMMAND_STOP helloParams (List.replicate PAYLOAD_PARAMS_COUNT 0)
    (mapPyInts_replicate_zero PAYLOAD_PARAMS_COUNT)
  cases ho : recvOutcome exitFlag chunks with
  | got p =>
    by_cases hc : p.packetType = PACKET_TYPE_RESPONSE ∧ p.command = RESP_OK
    · simp [waitForHelloRoutine, hsend, ho, recvReturn, isOkResult, isErrResult, helloSuccess, hc]
    · simp [waitForHelloRoutine, hsend, ho, recvReturn, isOkResult, isErrResult, helloSuccess, hc]
  | failed s =>
    simp [waitForHelloRoutine, hsend, ho, recvReturn, isOkResult, isErrResult, helloSuccess]
  | cancelled =>
    simp [waitForHelloRoutine, hsend, ho, recvReturn, isOkResult, isErrResult, helloSuccess]
  | starved => exact absurd ho hs

/-- Witness for C4 at a concrete RESPONSE/OK acknowledgement frame. -/
theorem hello_handshake_spec_witness :
    isOkResult (waitForHelloRoutine { ack_received := true, written := [], log := [] }
        false [respFrame]) = helloSuccess (recvOutcome false [respFrame]) ∧
    isErrResult (waitForHelloRoutine { ack_received := true, written := [], log := [] }
        false [respFrame]) = !helloSuccess (recvOutcome false [respFrame]) :=
  hello_handshake_spec { ack_received := true, written := [], log := [] }
    false [respFrame] (by decide)

/-- Claim C6: a line whose first token names a two-parameter command
and which supplies at least two further tokens parses to that command
with exactly the first two tokens as parameters, zero-padded to
`PARAM_COUNT`, any excess tokens ignored; a line whose first token
names a zero-parameter command (s, c, g) parses to that command with an
all-zero parameter list of length `PARAM_COUNT`, any extra tokens
ignored. -/
theorem param_arity_spec :
    (∀ (input promptLine t1 t2 cmd : String) (restT : List String) (ct : Nat),
      (cmd, ct) ∈ ([("f", COMMAND_FORWARD), ("b", COMMAND_REVERSE),
                    ("l", COMMAND_TURN_LEFT), ("r", COMMAND_TURN_RIGHT)] : List (String × Nat)) →
      tokenize input = cmd :: t1 :: t2 :: restT →
      parseUserInput input promptLine =
        { triple := some (PACKET_TYPE_COMMAND, ct,
            [PyVal.str t1, PyVal.str t2] ++ List.replicate (PAYLOAD_PARAMS_COUNT - 2) (PyVal.int 0)),
          exitSet := false, report := [] }) ∧
    (∀ (input promptLine cmd : String) (restT : List String) (ct : Nat),
      (cmd, ct) ∈ ([("s", COMMAND_STOP), ("c", COMMAND_CLEAR_STATS),
                    ("g", COMMAND_GET_STATS)] : List (String × Nat)) →
      tokenize input = cmd :: restT →
      parseUserInput input promptLine =
        { triple := some (PACKET_TYPE_COMMAND, ct, List.replicate PAYLOAD_PARAMS_COUNT (PyVal.int 0)),
          exitSet := false, report := [] }) := by
  constructor
  · intro input promptLine t1 t2 cmd restT ct hmem htok
    simp only [List.mem_cons, List.mem_singleton, Prod.mk.injEq, List.not_mem_nil, or_false] at hmem
    unfold parseUserInput
    rw [htok]
    simp only [parseTokens, List.map_cons]
    rcases hmem with ⟨rfl, rfl⟩ | ⟨rfl, rfl⟩ | ⟨rfl, rfl⟩ | ⟨rfl, rfl⟩
    · rw [if_pos rfl]
      exact withParams2_result COMMAND_FORWARD t1 t2 restT promptFB promptLine
    · rw [if_neg (by decide), if_pos rfl]
      exact withParams2_result COMMAND_REVERSE t1 t2 restT promptFB promptLine
    · rw [if_neg (by decide), if_neg (by decide), if_pos rfl]
      exact withParams2_result COMMAND_TURN_LEFT t1 t2 restT promptL promptLine
    · rw [if_neg (by decide), if_neg (by decide), if_neg (by decide), if_pos rfl]
      exact withParams2_result COMMAND_TURN_RIGHT t1 t2 restT promptR promptLine
  · intro input promptLine cmd restT ct hmem htok
    simp only [List.mem_cons, List.mem_singleton, Prod.mk.injEq, List.not_mem_nil, or_false] at hmem
    unfold parseUserInput
    rw [htok]
    simp only [parseTokens, List.map_cons]
    rcases hmem with ⟨rfl, rfl⟩ | ⟨rfl, rfl⟩ | ⟨rfl, rfl⟩
    · rw [if_neg (by decide), if_neg (by decide), if_neg (by decide), if_neg (by decide),
        if_pos rfl]
      exact withParams0_result COMMAND_STOP _ promptLine
    · rw [if_neg (by decide), if_neg (by decide), if_neg (by decide), if_neg (by decide),
        if_neg (by decide), if_pos rfl]
      exact withParams0_result COMMAND_CLEAR_STATS _ promptLine
    · rw [if_neg (by decide), if_neg (by decide), if_neg (by decide), if_neg (by decide),
        if_neg (by decide), if_neg (by decide), if_pos rfl]
      exact withParams0_result COMMAND_GET_STATS _ promptLine

/-- Witness for C6: `f 10 50 99` truncates to the first two tokens
zero-padded, and `s extra` ignores the extra token. -/
theorem param_arity_spec_witness :
    parseUserInput "f 10 50 99" "" =
      { triple := some (PACKET_TYPE_COMMAND, COMMAND_FORWARD,
          [PyVal.str "10", PyVal.str "50"] ++
            List.replicate (PAYLOAD_PARAMS_COUNT - 2) (PyVal.int 0)),
        exitSet := false, report := [] } ∧
    parseUserInput "s extra" "" =
      { triple := some (PACKET_TYPE_COMMAND, COMMAND_STOP,
          List.replicate PAYLOAD_PARAMS_COUNT (PyVal.int 0)),
        exitSet := false, report := [] } :=
  ⟨param_arity_spec.1 "f 10 50 99" "" "10" "50" "f" ["99"] COMMAND_FORWARD
      (by simp) (by decide),
   param_arity_spec.2 "s extra" "" "s" ["extra"] COMMAND_STOP (by simp) (by decide)⟩

/-- Claim C7: when too few tokens are given and a prompt message is
available, `parseParams` prompts exactly once — the result is the
no-prompt reparse of the re-entered line — and when that line still
supplies too few tokens the result is `None`; the recursion depth is
thereby at most one on every input. -/
theorem reprompt_bounded (p : List PyVal) (num_p : Nat) (m : String) (line : String)
    (hn : 0 < num_p) (hlt : p.length < num_p) :
    parseParams p num_p (some m) line = parseParamsNoPrompt (promptTokens line) num_p ∧
    ((promptTokens line).length < num_p → parseParams p num_p (some m) line = none) := by
  have h0 : num_p ≠ 0 := by omega
  have hnle : ¬ num_p ≤ p.length := by omega
  have heq : parseParams p num_p (some m) line = parseParamsNoPrompt (promptTokens line) num_p := by
    unfold parseParams
    rw [if_neg h0, if_neg hnle]
  refine ⟨heq, fun hlt2 => ?_⟩
  rw [heq]
  unfold parseParamsNoPrompt
  rw [if_neg h0, if_neg (by omega : ¬ num_p ≤ (promptTokens line).length)]

/-- Witness for C7: arity 2, no tokens supplied, a one-token re-entered
line: the reparse is the no-prompt parse and the command is rejected. -/
theorem reprompt_bounded_witness :
    parseParams [] 2 (some "") "7" = parseParamsNoPrompt (promptTokens "7") 2 ∧
    parseParams [] 2 (some "") "7" = none :=
  ⟨(reprompt_bounded [] 2 "" "7" (by decide) (by decide)).1,
   (reprompt_bounded [] 2 "" "7" (by decide) (by decide)).2 (by decide)⟩

/-- Claim C9: a line whose first token is none of f, b, l, r, s, c, g,
q is rejected by `parseUserInput` with an invalid-command report: no
command triple is produced (so nothing can be sent) and the Exit Signal
is not set; the session state is untouched because `parseUserInput`
never touches it. -/
theorem unknown_command_rejected (input promptLine cmd : String) (restT : List String)
    (htok : tokenize input = cmd :: restT)
    (hcmd : cmd ∉ (["f", "b", "l", "r", "s", "c", "g", "q"] : List String)) :
    parseUserInput input promptLine =
      { triple := none, exitSet := false, report := [cmd ++ " is not a valid command"] } := by
  simp only [List.mem_cons, List.mem_singleton, List.not_mem_nil, or_false, not_or] at hcmd
  obtain ⟨h1, h2, h3, h4, h5, h6, h7, h8⟩ := hcmd
  unfold parseUserInput
  rw [htok]
  simp only [parseTokens]
  rw [if_neg h1, if_neg h2, if_neg h3, if_neg h4, if_neg h5, if_neg h6, if_neg h7, if_neg h8]

/-- Witness for C9 at the concrete input `x 1 2`. -/
theorem unknown_command_rejected_witness :
    parseUserInput "x 1 2" "" =
      { triple := none, exitSet := false, report := ["x" ++ " is not a valid command"] } :=
  unknown_command_rejected "x 1 2" "" "x" ["1", "2"] (by decide) (by decide)

theorem moveParams_eq (d s : String) :
    moveParams d s = PyVal.str d :: PyVal.str s :: List.replicate 14 (PyVal.int 0) := rfl

theorem mapPyInts_moveParams (d s : String) (nd ns : Int)
    (hd : pyIntOfString? d = some nd) (hs : pyIntOfString? s = some ns) :
    mapPyInts (moveParams d s) = some (nd :: ns :: List.replicate 14 (0 : Int)) := by
  rw [moveParams_eq]
  simp [mapPyInts, pyInt?, hd, hs, mapPyInts_replicate_zero]

theorem speed_toInt (s : String) (hs : s = "50" ∨ s = "75" ∨ s = "100") :
    ∃ n, pyIntOfString? s = some n := by
  rcases hs with rfl | rfl | rfl
  · exact ⟨50, by decide⟩
  · exact ⟨75, by decide⟩
  · exact ⟨100, by decide⟩

theorem sendRecv_eq (ls : LoopState) (msg : String) (ct : Nat) (ps : List PyVal)
    (chunks : List (List Nat)) (cm : CommState)
    (h : sendPacket (logT ls.comm msg) PACKET_TYPE_COMMAND ct ps = some cm) :
    sendRecv ls msg ct ps chunks = finishRecv ls.speed ls.exitFlag cm chunks := by
  unfold sendRecv
  rw [h]

theorem keypressStep_z (ls : LoopState) (chunks : List (List Nat)) :
    keypressStep ls (KeyEvent.press 'z') chunks = sendRecv ls "Stop" COMMAND_STOP stopArgs chunks := by
  simp [keypressStep]

/-- Claim C8, counterexample to the claim as stated: in an iteration
whose Acknowledgment Gate is closed, the stop key still reaches
`sendPacket` but the send is refused, so no STOP frame (no frame at
all) is written in that iteration. -/
theorem stop_key_frame_cex :
    ((keypressStep zCexStart (KeyEvent.press 'z') [respFrame]).2.map
      (fun r => r.1.comm.written)) = some [] := by
  decide

/-- Claim C8 (amended: the Acknowledgment Gate must be open for the
frame to be written): in every completed loop iteration on the stop
key with the gate open, the loop calls `sendPacket` with the STOP
command and the all-zero argument list, and exactly the STOP frame is
appended to the Transport, independent of the current speed; the frame
is well-formed: it decodes back to the STOP packet with `PACKET_OK`,
and that packet's parameter list is all zeros. -/
theorem stop_key_frame (ls : LoopState) (chunks : List (List Nat)) (ls2 : LoopState)
    (cont : Bool)
    (hopen : ls.comm.ack_received = true)
    (hstep : (keypressStep ls (KeyEvent.press 'z') chunks).2 = some (ls2, cont)) :
    ls2.comm.written = ls.comm.written ++ [serialize stopPacket] ∧
    stopPacket.command = COMMAND_STOP ∧
    stopPacket.params = List.replicate PAYLOAD_PARAMS_COUNT (0 : Int) ∧
    deserialize (serialize stopPacket) = (TResultType.PACKET_OK, stopPacket) := by
  have hsend := sendPacket_open (logT ls.comm "Stop") PACKET_TYPE_COMMAND COMMAND_STOP
    stopArgs [0, 0, 0, 0] hopen (by decide)
  rw [keypressStep_z, sendRecv_eq ls "Stop" COMMAND_STOP stopArgs chunks _ hsend] at hstep
  have hw := finishRecv_written ls.speed ls.exitFlag _ chunks ls2 cont hstep
  refine ⟨?_, by decide, by decide, by decide⟩
  rw [hw]
  simp [logT, stopPacket]

/-- Witness for C8 at a concrete open-gate iteration acknowledged by a
RESPONSE/OK frame. -/
theorem stop_key_frame_witness :
    zKeyEnd.comm.written = zKeyStart.comm.written ++ [serialize stopPacket] ∧
    stopPacket.command = COMMAND_STOP ∧
    stopPacket.params = List.replicate PAYLOAD_PARAMS_COUNT (0 : Int) ∧
    deserialize (serialize stopPacket) = (TResultType.PACKET_OK, stopPacket) :=
  stop_key_frame zKeyStart [respFrame] zKeyEnd true rfl (by decide)

/-- Claim C10: every decoded keypress other than ESC — the speed keys
1/2/3 and unmapped keys included — is followed by exactly one blocking
`receivePacket` call in its loop iteration, while the ESC iteration
makes none; the hypothesis on `speed` is the loop invariant that the
speed string is one of the three power levels. -/
theorem keypress_recv_count (ls : LoopState) (c : Char) (chunks : List (List Nat))
    (hs : ls.speed = "50" ∨ ls.speed = "75" ∨ ls.speed = "100")
    (hesc : c ≠ '\x1b') :
    (keypressStep ls (KeyEvent.press c) chunks).1 = 1 ∧
    (keypressStep ls (KeyEvent.press '\x1b') chunks).1 = 0 := by
  obtain ⟨ns, hns⟩ := speed_toInt ls.speed hs
  constructor
  · simp only [keypressStep]
    by_cases h123 : c = '1' ∨ c = '2' ∨ c = '3'
    · rw [if_pos h123]
      exact finishRecv_fst _ _ _ _
    rw [if_neg h123]
    by_cases hw : c = 'w'
    · rw [if_pos hw]
      exact sendRecv_fst _ _ _ _ _ _
        (mapPyInts_moveParams move_distance ls.speed 2 ns (by decide) hns)
    rw [if_neg hw]
    by_cases hs2 : c = 's'
    · rw [if_pos hs2]
      exact sendRecv_fst _ _ _ _ _ _
        (mapPyInts_moveParams move_distance ls.speed 2 ns (by decide) hns)
    rw [if_neg hs2]
    by_cases ha : c = 'a'
    · rw [if_pos ha]
      exact sendRecv_fst _ _ _ _ _ _
        (mapPyInts_moveParams turn_angle ls.speed 6 ns (by decide) hns)
    rw [if_neg ha]
    by_cases hd : c = 'd'
    · rw [if_pos hd]
      exact sendRecv_fst _ _ _ _ _ _
        (mapPyInts_moveParams turn_angle ls.speed 6 ns (by decide) hns)
    rw [if_neg hd]
    by_cases hz : c = 'z'
    · rw [if_pos hz]
      exact sendRecv_fst _ _ _ _ _ _ (by decide : mapPyInts stopArgs = some [0, 0, 0, 0])
    rw [if_neg hz, if_neg hesc]
    exact finishRecv_fst _ _ _ _
  · simp [keypressStep]

/-- Witness for C10: a movement key makes one receive call, ESC makes
none. -/
theorem keypress_recv_count_witness :
    (keypressStep wKeyStart (KeyEvent.press 'w') []).1 = 1 ∧
    (keypressStep wKeyStart (KeyEvent.press '\x1b') []).1 = 0 :=
  keypress_recv_count wKeyStart 'w' [] (Or.inl rfl) (by decide)

end Alex
